import Mathlib

/-!
Verification development for the surgeon-match request-gating pipeline.

Shallow embedding of the gating core of the repository:
* `core/security.py` — `verify_api_key`, `log_api_key_usage`, `check_rate_limit`;
* `core/cache.py` — `RedisCache.generate_key`, `get_cache_key_from_request`,
  `cached_response`;
* `api/middleware/cache.py` — `CacheMiddleware.dispatch`;
* `api/middleware.py` — `APIKeyMiddleware.dispatch`, `RateLimitMiddleware.dispatch`,
  `RequestLoggingMiddleware.dispatch`, and the composition `add_middleware`.

Modelling conventions:
* `datetime.utcnow()` is an integer number of seconds (`Int`), supplied as a
  parameter `now`; each simulated request carries its own time.
* Database tables (`api_keys`, `api_key_usage_logs`) and the Redis keyspace are
  explicit lists inside a `SysState`; SQL statements become list operations.
* The SHA-256 hex digest is carried as an explicit function parameter
  `sha256hex : String → String`; nothing proved here depends on any property
  of the digest beyond it being a function.
* A Python exception escaping a database write is modelled by a Boolean fate
  flag (`updateOk`, `logOk`): `false` means the write raises.  Where the source
  swallows the exception the model keeps the state unchanged; where the source
  lets it propagate the model returns the propagated-error outcome.
* Starlette calls middleware in reverse order of registration: the middleware
  added last is outermost and sees the request first.  `add_middleware`
  registers `RequestLoggingMiddleware`, then `RateLimitMiddleware`, then
  `APIKeyMiddleware`, then `CacheMiddleware`, so the execution order is
  Cache → APIKey → RateLimit → Logging → route handler, which is what
  `runApp` composes.
-/

namespace SurgeonMatch

/-- Settings fields consumed by the gating pipeline (`core/config.py` plus the
`DEFAULT_RATE_LIMIT`, `DEFAULT_RATE_LIMIT_PERIOD` and `TEST_API_KEY` attributes
read by `core/security.py`; `TEST_API_KEY` is an `Option`, mirroring the
`hasattr(settings, 'TEST_API_KEY')` guard). -/
structure Settings where
  DEBUG : Bool
  TEST_API_KEY : Option String
  DEFAULT_RATE_LIMIT : Int
  DEFAULT_RATE_LIMIT_PERIOD : Int
deriving Repr, DecidableEq

/-- A row of the `api_keys` table (`models/api_key.py`).  `key` is the stored
SHA-256 hex digest of the secret.  `rate_limit` / `rate_limit_period` model the
columns read by the custom-limit `SELECT` in `check_rate_limit`; a row where
they are `none` behaves exactly like the shipped schema, in which that
`SELECT` fails and the defaults are kept. -/
structure APIKeyRecord where
  id : String
  key : String
  name : String
  is_active : Bool
  expires_at : Option Int
  last_used_at : Option Int
  rate_limit : Option Int
  rate_limit_period : Option Int
deriving Repr, DecidableEq

/-- A row of the `api_key_usage_logs` table (`models/api_key.py`). -/
structure UsageLog where
  api_key_id : String
  endpoint : String
  method : String
  status_code : Nat
  created_at : Int
deriving Repr, DecidableEq

/-- Outcome of `verify_api_key` (`core/security.py`): the three returned error
messages, success with the (updated) record, or a database exception
propagating out of the `UPDATE api_keys SET last_used_at` statement. -/
inductive VerifyOutcome where
  | missing
  | invalid
  | expired
  | ok (r : APIKeyRecord)
  | dbError
deriving Repr, DecidableEq

/-- The fake record built for the debug test credential inside
`verify_api_key`.  The source draws a fresh `uuid4` for `id`; the model uses a
fixed fresh identifier, which no theorem below depends on. -/
def testKeyRecord (now : Int) : APIKeyRecord :=
  { id := "test-api-key-id", key := "test-key-hash", name := "Test API Key",
    is_active := true, expires_at := none, last_used_at := some now,
    rate_limit := none, rate_limit_period := none }

/-- Embedding of `verify_api_key` (`core/security.py`, lines 103-169).
Returns the outcome together with the possibly updated `api_keys` table.
`updateOk = false` makes the `UPDATE ... last_used_at` statement raise, which
the source does not catch. -/
def verify_api_key (st : Settings) (sha256hex : String → String) (now : Int)
    (api_key : Option String) (keys : List APIKeyRecord) (updateOk : Bool) :
    VerifyOutcome × List APIKeyRecord :=
  match api_key with
  | none => (.missing, keys)
  | some k =>
    if k = "" then (.missing, keys)
    else if st.DEBUG && st.TEST_API_KEY == some k then
      (.ok (testKeyRecord now), keys)
    else
      let hashed := sha256hex k
      match keys.find? (fun r => r.key == hashed && r.is_active) with
      | none => (.invalid, keys)
      | some r =>
        if r.expires_at.isSome ∧ r.expires_at.iget < now then
          (.expired, keys)
        else if updateOk then
          (.ok { r with last_used_at := some now },
           keys.map (fun q => if q.id == r.id then { q with last_used_at := some now } else q))
        else
          (.dbError, keys)

/-- Does the request's `x-api-key` header match the configured debug test
credential?  Mirrors the guard
`settings.DEBUG and hasattr(settings, 'TEST_API_KEY') and header == settings.TEST_API_KEY`
used in `log_api_key_usage` and `check_rate_limit`. -/
def testKeyMatches (st : Settings) (hdr : Option String) : Bool :=
  st.DEBUG &&
    (match st.TEST_API_KEY, hdr with
     | some t, some k => k == t
     | _, _ => false)

/-- Embedding of `log_api_key_usage` (`core/security.py`, lines 171-211).
Appends a usage row unless the debug test credential is presented; an `INSERT`
failure (`logOk = false`) is caught and swallowed by the source, leaving the
table unchanged. -/
def log_api_key_usage (st : Settings) (now : Int) (req_api_key : Option String)
    (api_key_id : String) (endpoint method : String) (status_code : Nat)
    (logs : List UsageLog) (logOk : Bool) : List UsageLog :=
  if testKeyMatches st req_api_key then logs
  else if logOk then
    logs ++ [{ api_key_id := api_key_id, endpoint := endpoint, method := method,
               status_code := status_code, created_at := now }]
  else logs

/-- Result tuple of `check_rate_limit`: `(is_rate_limited, limit, remaining, reset)`. -/
structure RateLimitResult where
  is_rate_limited : Bool
  limit : Int
  remaining : Int
  reset : Int
deriving Repr, DecidableEq

/-- The per-key limit used by `check_rate_limit`: the `rate_limit` column of
the key's row when present, else `settings.DEFAULT_RATE_LIMIT`. -/
def effectiveLimit (st : Settings) (keys : List APIKeyRecord) (api_key_id : String) : Int :=
  match keys.find? (fun r => r.id == api_key_id) with
  | some r => r.rate_limit.getD st.DEFAULT_RATE_LIMIT
  | none => st.DEFAULT_RATE_LIMIT

/-- The per-key period used by `check_rate_limit`: the `rate_limit_period`
column of the key's row when present, else `settings.DEFAULT_RATE_LIMIT_PERIOD`. -/
def effectivePeriod (st : Settings) (keys : List APIKeyRecord) (api_key_id : String) : Int :=
  match keys.find? (fun r => r.id == api_key_id) with
  | some r => r.rate_limit_period.getD st.DEFAULT_RATE_LIMIT_PERIOD
  | none => st.DEFAULT_RATE_LIMIT_PERIOD

/-- Does a usage-log row match the `WHERE` clause of the counting query in
`check_rate_limit`: same key, same endpoint, `created_at > now - period`? -/
def logMatches (api_key_id endpoint : String) (period_start : Int) (l : UsageLog) : Bool :=
  l.api_key_id == api_key_id && l.endpoint == endpoint && decide (period_start < l.created_at)

/-- Embedding of `check_rate_limit` (`core/security.py`, lines 214-294).
`req_api_key` is `none` when `request=None` is passed, otherwise
`some hdr` with `hdr` the request's `x-api-key` header.  The count is taken
over the trailing `period` seconds of the usage log — the source computes
`period_start = now - timedelta(seconds=period)` and counts rows with
`created_at > period_start`. -/
def check_rate_limit (st : Settings) (now : Int) (api_key_id : String)
    (endpoint : String) (keys : List APIKeyRecord) (logs : List UsageLog)
    (req_api_key : Option (Option String)) : RateLimitResult :=
  if (match req_api_key with
      | some hdr => testKeyMatches st hdr
      | none => false) then
    { is_rate_limited := false, limit := 5, remaining := 4, reset := 60 }
  else
    let rl := effectiveLimit st keys api_key_id
    let rp := effectivePeriod st keys api_key_id
    let period_start := now - rp
    let request_count : Int := ((logs.filter (logMatches api_key_id endpoint period_start)).length : Int)
    let remaining := max 0 (rl - request_count)
    { is_rate_limited := decide (remaining ≤ 0), limit := rl, remaining := remaining, reset := rp }

/-- Key order used to model Python's `sorted(params.items())`: comparison by
parameter name.  `sorted` compares full `(key, value)` tuples, but every map
fed to `generate_key` has pairwise-distinct keys, so the tuple order and the
key order agree there. -/
def paramLE (a b : String × Option String) : Prop := a.1 ≤ b.1

instance : DecidableRel paramLE := fun a b => inferInstanceAs (Decidable (a.1 ≤ b.1))

instance : IsTotal (String × Option String) paramLE := ⟨fun a b => le_total a.1 b.1⟩

instance : IsTrans (String × Option String) paramLE := ⟨fun _ _ _ h h' => le_trans h h'⟩

/-- Embedding of `RedisCache.generate_key` (`core/cache.py`, lines 93-112).
Parameter maps are association lists; a `none` value models a Python `None`,
which the source drops from the joined string.  `pre` is the source's `prefix`
argument. -/
def generate_key (pre : String) (params : List (String × Option String)) : String :=
  if params.isEmpty then pre
  else
    let parts := (params.insertionSort paramLE).filterMap
      (fun kv => kv.2.map (fun v => kv.1 ++ ":" ++ v))
    pre ++ "_" ++ String.intercalate "_" parts

/-- Python dict assignment `m[k] = v` on an insertion-ordered dict: replace in
place when the key exists, append otherwise. -/
def assocSet (m : List (String × String)) (k v : String) : List (String × String) :=
  if m.any (fun p => p.1 == k) then m.map (fun p => if p.1 == k then (k, v) else p)
  else m ++ [(k, v)]

/-- Python `dict.update`: assign every pair of `upd` into `m` in order. -/
def dictUpdate (m upd : List (String × String)) : List (String × String) :=
  upd.foldl (fun acc kv => assocSet acc kv.1 kv.2) m

/-- Python's `str.startswith`, computed on the character lists (the built-in
`String.startsWith` goes through `Substring` primitives that the kernel cannot
reduce; this version is extensionally the same function). -/
def strStartsWith (s p : String) : Bool := p.data.isPrefixOf s.data

/-- An inbound request as seen by the middleware: method, path, the
`X-API-Key` header, query parameters and path parameters. -/
structure Request where
  method : String
  path : String
  api_key : Option String
  query_params : List (String × String)
  path_params : List (String × String)
deriving Repr, DecidableEq

/-- Embedding of `get_cache_key_from_request` (`core/cache.py`, lines 150-169):
query params, updated with path params, plus the API key under `"api_key"`
when the header is present and non-empty (Python truthiness). -/
def get_cache_key_from_request (req : Request) (pre : String) : String :=
  let params := dictUpdate req.query_params req.path_params
  let params :=
    match req.api_key with
    | some k => if k = "" then params else assocSet params "api_key" k
    | none => params
  generate_key pre (params.map (fun kv => (kv.1, some kv.2)))

/-- The parsed form of the JSON document that `CacheMiddleware` stores in
Redis (`cache_data` in `api/middleware/cache.py`).  `json.dumps` of this dict
is a non-empty string, so an entry present in the model is exactly a truthy
`redis.get` in the source. -/
structure CacheVal where
  content : String
  status_code : Nat
  headers : List (String × String)
  media_type : String
deriving Repr, DecidableEq

/-- Lookup in the modelled Redis keyspace. -/
def cacheFind (cache : List (String × CacheVal)) (k : String) : Option CacheVal :=
  (cache.find? (fun p => p.1 == k)).map Prod.snd

/-- Redis `SET`: overwrite the value when the key exists, append otherwise. -/
def cacheSet (cache : List (String × CacheVal)) (k : String) (v : CacheVal) :
    List (String × CacheVal) :=
  if cache.any (fun p => p.1 == k) then
    cache.map (fun p => if p.1 == k then (k, v) else p)
  else cache ++ [(k, v)]

/-- Embedding of `cached_response` (`core/cache.py`, lines 120-147) with the
data callback as an `Except`: a raising callback (a "not found" condition)
propagates before the `cache.set` line is reached. -/
def cached_response (cache : List (String × String)) (cache_key : String)
    (data_callback : Unit → Except String String) :
    Except String String × List (String × String) :=
  match (cache.find? (fun p => p.1 == cache_key)).map Prod.snd with
  | some v =>
    if v = "" then
      match data_callback () with
      | .error e => (.error e, cache)
      | .ok d => (.ok d, assocSet cache cache_key d)
    else (.ok v, cache)
  | none =>
    match data_callback () with
    | .error e => (.error e, cache)
    | .ok d => (.ok d, assocSet cache cache_key d)

/-- A response.  `error_code` / `error_message` abstract the structured JSON
error envelope `{"error": {"code": ..., "message": ...}}` that the middleware
layers put into the body of 401/429/500 responses; handler bodies live in
`content`. -/
structure Response where
  status_code : Nat
  content : String
  headers : List (String × String)
  media_type : String
  error_code : Option String
  error_message : Option String
deriving Repr, DecidableEq

/-- Shared persistent state: the `api_keys` table, the `api_key_usage_logs`
table, and the Redis keyspace used by the cache middleware. -/
structure SysState where
  keys : List APIKeyRecord
  logs : List UsageLog
  cache : List (String × CacheVal)
deriving Repr, DecidableEq

/-- Per-request environment: settings, the digest function, the request's
wall-clock time, the fates of the two best-effort database writes, and the
rendered `X-Response-Time` value (a float string in the source). -/
structure Env where
  st : Settings
  sha256hex : String → String
  now : Int
  updateOk : Bool
  logOk : Bool
  response_time : String
  process_time : String

/-- A route handler ("the rest of request processing" past the gates): it may
read the shared state and produces a response. -/
def Handler := Request → SysState → Response

/-- The paths exempted from gating by both `APIKeyMiddleware` and
`RateLimitMiddleware` (`api/middleware.py`, lines 36 and 114). -/
def bypass_paths : List String :=
  ["/docs", "/openapi.json", "/redoc", "/", "/health", "/v1/health"]

/-- Result of one middleware dispatch: the response, the shared state after
the request, and how many times the innermost route handler ran. -/
abbrev DispatchResult := Response × SysState × Nat

/-- Cache middleware configuration (constructor arguments in
`api/middleware/cache.py`), as instantiated by `add_middleware`. -/
structure CacheConfig where
  cacheable_paths : List String
  exclude_paths : List String
  ttl : Nat

/-- The configuration passed by `add_middleware` (`api/middleware.py`,
lines 245-259). -/
def middlewareCacheConfig : CacheConfig :=
  { cacheable_paths := ["/api/v1/surgeons", "/api/v1/claims", "/api/v1/quality-metrics"],
    exclude_paths := ["/api/v1/api-keys", "/health", "/metrics"],
    ttl := 3600 }

/-- Embedding of `CacheMiddleware.dispatch` (`api/middleware/cache.py`,
lines 43-130).  Non-GET, non-cacheable or excluded paths pass straight
through; a hit returns the stored entry with `X-Cache: HIT`; a miss runs the
rest of the stack and stores the result only when its status is in
`[200, 400)`. -/
def cacheDispatch (cfg : CacheConfig) (env : Env) (req : Request) (s : SysState)
    (next : SysState → DispatchResult) : DispatchResult :=
  if req.method != "GET" then next s
  else if !(cfg.cacheable_paths.any (fun p => strStartsWith req.path p)) then next s
  else if cfg.exclude_paths.any (fun p => strStartsWith req.path p) then next s
  else
    let cache_key := get_cache_key_from_request req ("api:" ++ req.path)
    match cacheFind s.cache cache_key with
    | some v =>
      ({ status_code := v.status_code, content := v.content,
         headers := assocSet v.headers "X-Cache" "HIT", media_type := v.media_type,
         error_code := none, error_message := none }, s, 0)
    | none =>
      let (resp, s1, n) := next s
      if 200 ≤ resp.status_code ∧ resp.status_code < 400 then
        let hs := assocSet (assocSet resp.headers "X-Cache" "MISS")
          "X-Response-Time" env.response_time
        let v : CacheVal := { content := resp.content, status_code := resp.status_code,
                              headers := hs, media_type := resp.media_type }
        ({ resp with headers := hs }, { s1 with cache := cacheSet s1.cache cache_key v }, n)
      else (resp, s1, n)

/-- The 401 response emitted by `APIKeyMiddleware` on any verification
failure: always error code `api_key_invalid`, with the message from
`verify_api_key`. -/
def apiKey401 (msg : String) : Response :=
  { status_code := 401, content := "", headers := [], media_type := "application/json",
    error_code := some "api_key_invalid", error_message := some msg }

/-- The 500 response that results when an uncaught exception (here: the
`last_used_at` UPDATE failing) unwinds out of the middleware stack. -/
def internalError500 : Response :=
  { status_code := 500, content := "", headers := [], media_type := "application/json",
    error_code := some "http_error", error_message := some "Internal server error" }

/-- Embedding of `APIKeyMiddleware.dispatch` (`api/middleware.py`,
lines 22-98).  On success it records the key id for the inner layers (the
source puts it in `request.state`), runs them, adds `X-Process-Time`, and then
logs the usage best-effort. -/
def apiKeyDispatch (env : Env) (req : Request) (s : SysState)
    (next : Option String → SysState → DispatchResult) : DispatchResult :=
  if bypass_paths.contains req.path then next none s
  else
    match verify_api_key env.st env.sha256hex env.now req.api_key s.keys env.updateOk with
    | (.ok r, keys1) =>
      let s1 : SysState := { s with keys := keys1 }
      let (resp, s2, n) := next (some r.id) s1
      let resp1 := { resp with headers := assocSet resp.headers "X-Process-Time" env.process_time }
      let logs2 := log_api_key_usage env.st env.now req.api_key r.id req.path req.method
        resp1.status_code s2.logs env.logOk
      (resp1, { s2 with logs := logs2 }, n)
    | (.missing, _) => (apiKey401 "API key is required", s, 0)
    | (.invalid, _) => (apiKey401 "Invalid API key", s, 0)
    | (.expired, _) => (apiKey401 "API key has expired", s, 0)
    | (.dbError, _) => (internalError500, s, 0)

/-- The 429 response of `RateLimitMiddleware` (`api/middleware.py`,
lines 158-184), with its header set.  The `retry_date` HTTP-date body field is
abstracted away. -/
def rateLimit429 (rl : RateLimitResult) : Response :=
  { status_code := 429, content := "", media_type := "application/json",
    error_code := some "rate_limit_exceeded",
    error_message := some "Rate limit exceeded. Please try again later.",
    headers := [("Retry-After", toString rl.reset),
                ("X-RateLimit-Limit", toString rl.limit),
                ("X-RateLimit-Remaining", "0"),
                ("X-RateLimit-Reset", toString rl.reset),
                ("X-RateLimit-Window", toString rl.reset),
                ("Access-Control-Expose-Headers",
                 "Retry-After, X-RateLimit-Limit, X-RateLimit-Remaining, X-RateLimit-Reset, X-RateLimit-Window")] }

/-- Embedding of `RateLimitMiddleware.dispatch` (`api/middleware.py`,
lines 100-201).  Note the source invokes `call_next` before it branches on the
rate-limit verdict, so `next` runs here regardless of `is_rate_limited`; on an
exceeded limit the computed response is discarded and the 429 returned. -/
def rateLimitDispatch (env : Env) (req : Request) (api_key_id : Option String)
    (s : SysState) (next : SysState → DispatchResult) : DispatchResult :=
  if bypass_paths.contains req.path then next s
  else
    match api_key_id with
    | none =>
      ({ status_code := 401, content := "", headers := [], media_type := "application/json",
         error_code := some "api_key_missing", error_message := some "API key is required" },
       s, 0)
    | some kid =>
      let ep := req.method ++ ":" ++ req.path
      let rl := check_rate_limit env.st env.now kid ep s.keys s.logs (some req.api_key)
      let (resp0, s1, n) := next s
      let hs1 := assocSet resp0.headers "X-RateLimit-Limit" (toString rl.limit)
      let hs2 := assocSet hs1 "X-RateLimit-Remaining" (toString rl.remaining)
      let hs3 := assocSet hs2 "X-RateLimit-Reset" (toString rl.reset)
      let resp := { resp0 with headers := hs3 }
      if rl.is_rate_limited then (rateLimit429 rl, s1, n)
      else (resp, s1, n)

/-- Embedding of `RequestLoggingMiddleware.dispatch` (`api/middleware.py`,
lines 203-224): prints and passes through. -/
def loggingDispatch (s : SysState) (next : SysState → DispatchResult) : DispatchResult :=
  next s

/-- The stack below the cache middleware: APIKey, then RateLimit, then
request logging, then the route handler. -/
def innerStack (env : Env) (handler : Handler) (req : Request) (s : SysState) :
    DispatchResult :=
  apiKeyDispatch env req s (fun kid s2 =>
    rateLimitDispatch env req kid s2 (fun s3 =>
      loggingDispatch s3 (fun s4 => (handler req s4, s4, 1))))

/-- The full middleware stack in Starlette execution order
(Cache outermost, then APIKey, then RateLimit, then request logging, then the
route handler), as assembled by `add_middleware` (`api/middleware.py`,
lines 227-261).  The returned `Nat` counts route-handler invocations. -/
def runApp (cfg : CacheConfig) (env : Env) (handler : Handler) (req : Request)
    (s : SysState) : DispatchResult :=
  cacheDispatch cfg env req s (innerStack env handler req)

/-- Header lookup on a response. -/
def getHeader (r : Response) (k : String) : Option String :=
  (r.headers.find? (fun p => p.1 == k)).map Prod.snd

/-!
Interleaving model for the concurrency claim.  Per §5 of the spec, suspension
points sit at every database call, so the atomic units of one request, in
program order, are: the counting read inside `check_rate_limit` (together with
the admit decision made from it), and the later usage-log `INSERT` performed by
`APIKeyMiddleware` after the response.  A batch execution is any list of these
atomic actions; an interleaving of N simultaneous requests is a schedule in
which every request's `check` precedes its own `append`.  All requests of a
batch share the identity, request method and path, and timestamp.  Both steps
are taken exactly as the source performs them: the counting read is queried
with the `"METHOD:path"` endpoint string `RateLimitMiddleware` builds
(`api/middleware.py`, line 132), while the append stores the row
`log_api_key_usage` inserts, whose endpoint column is the bare
`str(request.url.path)`; no custom-limit row and no debug test header.
-/

/-- State of a simulated batch: the usage-log table and the list of admitted
request indices, in admission order. -/
structure SimState where
  logs : List UsageLog
  admitted : List Nat
deriving Repr, DecidableEq

/-- One atomic action of request `i`: its rate-limit counting read (plus admit
decision), or its usage-log append. -/
inductive RAct where
  | check (i : Nat)
  | append (i : Nat)
deriving Repr, DecidableEq

/-- The usage-log row one batch request appends, exactly as `log_api_key_usage`
builds it: the endpoint column holds the bare request path
(`str(request.url.path)`), not the `"METHOD:path"` string the counting read is
queried with.  Same identity, method, path and timestamp for the whole
simultaneous batch. -/
def batchLog (kid reqMethod reqPath : String) (t : Int) : UsageLog :=
  { api_key_id := kid, endpoint := reqPath, method := reqMethod, status_code := 200,
    created_at := t }

/-- Execute one atomic action of the batch.  The counting read uses the
endpoint string `reqMethod ++ ":" ++ reqPath` built by `RateLimitMiddleware`;
the append stores `batchLog`, whose endpoint is the bare `reqPath`. -/
def simStep (st : Settings) (reqMethod reqPath kid : String) (t : Int) (s : SimState) :
    RAct → SimState
  | .check i =>
    let r := check_rate_limit st t kid (reqMethod ++ ":" ++ reqPath) [] s.logs none
    if r.is_rate_limited then s else { s with admitted := s.admitted ++ [i] }
  | .append _ =>
    { s with logs := s.logs ++ [batchLog kid reqMethod reqPath t] }

/-- Execute a schedule of atomic actions from an empty window. -/
def simRun (st : Settings) (reqMethod reqPath kid : String) (t : Int)
    (sched : List RAct) : SimState :=
  sched.foldl (simStep st reqMethod reqPath kid t) { logs := [], admitted := [] }

/-- The indices of the `check` actions of a schedule, in order: the requests a
run admits when every check passes. -/
def checkIndices : List RAct → List Nat
  | [] => []
  | .check i :: r => i :: checkIndices r
  | .append _ :: r => checkIndices r

/-- The two atomic actions of request `i`, in the order the source performs
them. -/
def requestProgram (i : Nat) : List RAct := [.check i, .append i]

/-- The fully serialized schedule of `n` requests: each request's append
completes before the next request's check starts. -/
def serialSched : Nat → List RAct
  | 0 => []
  | n + 1 => serialSched n ++ requestProgram n

/-- Following the spec's words (§4.2), not the source: the tumbling-window
boundary, `floor(now / periodSeconds) * periodSeconds`. -/
def spec_window_start (now period : Int) : Int := now / period * period

/-- Following the spec's words (§4.2), not the source: the count of the
current tumbling window — matching requests at or after the window boundary;
anything before the boundary belongs to a dead window and is treated as
absent. -/
def spec_window_count (kid ep : String) (now period : Int) (logs : List UsageLog) : Nat :=
  (logs.filter (fun l =>
    l.api_key_id == kid && l.endpoint == ep &&
      decide (spec_window_start now period ≤ l.created_at))).length

/-!
Concrete scenario data used by the claim theorems and witnesses below.
-/

/-- Production-like settings: debug off, no test key, limit 5 per 60s. -/
def stdSettings : Settings :=
  { DEBUG := false, TEST_API_KEY := none, DEFAULT_RATE_LIMIT := 5,
    DEFAULT_RATE_LIMIT_PERIOD := 60 }

/-- Concrete stand-in for the SHA-256 hex digest in closed scenarios; the
embedding is parametric in the digest and no theorem uses any property of it. -/
def idHash : String → String := fun s => s

/-- Environment for a request arriving at time `now`, with both best-effort
writes succeeding. -/
def mkEnv (now : Int) : Env :=
  { st := stdSettings, sha256hex := idHash, now := now, updateOk := true,
    logOk := true, response_time := "rt", process_time := "pt" }

/-- A route handler answering 200 with a fixed body. -/
def okHandler : Handler := fun _ _ =>
  { status_code := 200, content := "body", headers := [],
    media_type := "application/json", error_code := none, error_message := none }

/-- A route handler answering 404 (resource absent). -/
def notFoundHandler : Handler := fun _ _ =>
  { status_code := 404, content := "", headers := [],
    media_type := "application/json", error_code := some "not_found",
    error_message := some "Resource not found" }

/-- A cacheable GET request presenting an API key that matches no stored
record. -/
def c1Req : Request :=
  { method := "GET", path := "/api/v1/surgeons", api_key := some "BADKEY",
    query_params := [], path_params := [] }

/-- A cache entry sitting under `c1Req`'s cache key. -/
def c1Val : CacheVal :=
  { content := "cached-surgeons", status_code := 200,
    headers := [("X-Cache", "MISS")], media_type := "application/json" }

/-- State for the C1 scenario: no API keys at all, empty log, and the cache
pre-populated under `c1Req`'s key. -/
def c1State : SysState :=
  { keys := [], logs := [],
    cache := [(get_cache_key_from_request c1Req ("api:" ++ c1Req.path), c1Val)] }

/-- An active, unexpired API-key row whose stored digest matches the presented
key `"K"` under `idHash`. -/
def c2Rec : APIKeyRecord :=
  { id := "id1", key := "K", name := "prod", is_active := true, expires_at := none,
    last_used_at := none, rate_limit := none, rate_limit_period := none }

/-- A usage-log row carrying the `METHOD:path` endpoint string the rate-limit
query filters on. -/
def c2Log (t : Int) : UsageLog :=
  { api_key_id := "id1", endpoint := "GET:/api/v1/match", method := "GET",
    status_code := 200, created_at := t }

/-- A gated GET request on a non-cacheable path, presenting key `"K"`. -/
def c2Req : Request :=
  { method := "GET", path := "/api/v1/match", api_key := some "K",
    query_params := [], path_params := [] }

/-- State for the C2 scenario: the key row plus five recent usage-log rows
whose endpoint column equals the string the rate-limit query uses, filling the
limit-5 window. -/
def c2State : SysState :=
  { keys := [c2Rec], logs := [c2Log 995, c2Log 996, c2Log 997, c2Log 998, c2Log 999],
    cache := [] }

/-- Fresh state for the C3 scenario: the key row, no usage yet. -/
def c3S0 : SysState := { keys := [c2Rec], logs := [], cache := [] }

/-- The six request times of the claimed scenario, all inside the tumbling
window `[1020, 1080)`. -/
def c3Times : List Int := [1021, 1022, 1023, 1024, 1025, 1026]

/-- Run one gated request per listed time through the full middleware stack,
threading the shared state; returns the responses in order and the final
state. -/
def runSeq (reqTimes : List Int) (s : SysState) : List Response × SysState :=
  reqTimes.foldl
    (fun acc t =>
      let r := runApp middlewareCacheConfig (mkEnv t) okHandler c2Req acc.2
      (acc.1 ++ [r.1], r.2.1))
    ([], s)

/-- Settings with limit 1, for the concurrency scenario. -/
def c5Settings : Settings :=
  { DEBUG := false, TEST_API_KEY := none, DEFAULT_RATE_LIMIT := 1,
    DEFAULT_RATE_LIMIT_PERIOD := 60 }

/-- An inactive key row whose expiry is in the past. -/
def c7Rec : APIKeyRecord :=
  { id := "id7", key := "H7", name := "retired", is_active := false,
    expires_at := some 0, last_used_at := none, rate_limit := none,
    rate_limit_period := none }

/-- An active key row whose expiry is in the past. -/
def c7ActiveRec : APIKeyRecord :=
  { id := "id7a", key := "H7A", name := "expired-active", is_active := true,
    expires_at := some 0, last_used_at := none, rate_limit := none,
    rate_limit_period := none }

/-- An active, unexpired key row for the best-effort-update scenario. -/
def c8Rec : APIKeyRecord :=
  { id := "id8", key := "H8", name := "prod8", is_active := true,
    expires_at := none, last_used_at := none, rate_limit := none,
    rate_limit_period := none }

/-- A cacheable GET request with the valid key `"K"`, for the C6 witness. -/
def c6Req : Request :=
  { method := "GET", path := "/api/v1/surgeons", api_key := some "K",
    query_params := [], path_params := [] }

/-- State for the C6 witness: the key row, empty log, empty cache. -/
def c6State : SysState := { keys := [c2Rec], logs := [], cache := [] }

/-- Debug settings exposing the test credential, for the C10 witness. -/
def dbgSettings : Settings :=
  { DEBUG := true, TEST_API_KEY := some "TESTKEY", DEFAULT_RATE_LIMIT := 100,
    DEFAULT_RATE_LIMIT_PERIOD := 60 }

/-- Settings with limit 1, for the tumbling-versus-rolling counterexample. -/
def c4Settings : Settings :=
  { DEBUG := false, TEST_API_KEY := none, DEFAULT_RATE_LIMIT := 1,
    DEFAULT_RATE_LIMIT_PERIOD := 60 }

/-- A usage-log row from the previous tumbling window: `created_at = 50`,
before the boundary `spec_window_start 70 60 = 60`. -/
def c4Log : UsageLog :=
  { api_key_id := "id4", endpoint := "GET:/e", method := "GET",
    status_code := 200, created_at := 50 }

/-- A matching usage-log row older than one period relative to `now = 100`. -/
def c4OldLog : UsageLog :=
  { api_key_id := "id4", endpoint := "GET:/e", method := "GET",
    status_code := 200, created_at := 10 }

/-!
Theorems.
-/

/-- Claim C1 is false on the source: the cache middleware is registered last
and therefore runs outermost, so a cacheable GET whose key hits the cache is
answered 200 from the cache with `X-Cache: HIT`, the route handler never runs,
the shared state is untouched (no rate-limit accounting, no usage log, no
`last_used_at` update), even though the presented API key matches no record at
all — `verify_api_key` on this very state would answer `invalid`. -/
theorem claim_C1_counterexample :
    (runApp middlewareCacheConfig (mkEnv 1000) okHandler c1Req c1State).1.status_code = 200 ∧
    getHeader (runApp middlewareCacheConfig (mkEnv 1000) okHandler c1Req c1State).1 "X-Cache" =
      some "HIT" ∧
    (runApp middlewareCacheConfig (mkEnv 1000) okHandler c1Req c1State).2.1 = c1State ∧
    (runApp middlewareCacheConfig (mkEnv 1000) okHandler c1Req c1State).2.2 = 0 ∧
    (verify_api_key stdSettings idHash 1000 c1Req.api_key c1State.keys true).1 =
      VerifyOutcome.invalid := by
  decide

/-- Claim C2 (code bug): `RateLimitMiddleware.dispatch` invokes `call_next`
before it branches on the rate-limit verdict, so a request whose check reports
the limit exceeded is answered 429 — but the downstream handler has already
run once.  Concretely: key `id1` with five matching usage-log rows in the last
60 seconds, limit 5. -/
theorem claim_C2 :
    (runApp middlewareCacheConfig (mkEnv 1000) okHandler c2Req c2State).1.status_code = 429 ∧
    (runApp middlewareCacheConfig (mkEnv 1000) okHandler c2Req c2State).2.2 = 1 := by
  decide

/-- Claim C3 (code bug): running the claimed scenario (limit 5, period 60,
six requests inside one window) through the full middleware stack admits all
six requests with `X-RateLimit-Remaining: 5` every time.  No request is ever
rejected: `log_api_key_usage` stores `endpoint = path` while the rate-limit
check queries `endpoint = "METHOD:path"`, so the counting query never matches
a row (the six rows are there, under the other endpoint string), and even
aside from that the check performs no increment of its own. -/
theorem claim_C3 :
    ((runSeq c3Times c3S0).1.map Response.status_code = [200, 200, 200, 200, 200, 200]) ∧
    ((runSeq c3Times c3S0).1.map (fun r => getHeader r "X-RateLimit-Remaining") =
      [some "5", some "5", some "5", some "5", some "5", some "5"]) ∧
    (runSeq c3Times c3S0).2.logs.length = 6 ∧
    (∀ l ∈ (runSeq c3Times c3S0).2.logs, l.endpoint = "/api/v1/match") ∧
    c2Req.method ++ ":" ++ c2Req.path = "GET:/api/v1/match" := by
  decide

/-- Claim C4 is false on the source: at `now = 70` with period 60, the
tumbling window of the claim starts at `spec_window_start 70 60 = 60` and the
only existing log row (`created_at = 50`) lies before it, so under the claim
the window is fresh and a limit-1 request must be admitted; `check_rate_limit`
instead counts the row (rolling interval `(10, 70]`) and rejects. -/
theorem claim_C4_counterexample :
    check_rate_limit c4Settings 70 "id4" "GET:/e" [] [c4Log] none =
      { is_rate_limited := true, limit := 1, remaining := 0, reset := 60 } ∧
    spec_window_start 70 60 = 60 ∧
    spec_window_count "id4" "GET:/e" 70 60 [c4Log] = 0 := by
  decide

/-- Claim C7 is false as stated ("regardless of the record's other fields"):
a record that is inactive and expired fails the active-record lookup first, so
verification answers `invalid`, not `expired`, although its `expires_at` (0)
is in the past of `now = 100`. -/
theorem claim_C7_counterexample :
    (verify_api_key stdSettings idHash 100 (some "H7") [c7Rec] true).1 =
      VerifyOutcome.invalid ∧
    c7Rec.expires_at = some 0 ∧ ((0 : Int) < 100) := by
  decide

/-- Claim C8 (code bug): the `last_used_at` UPDATE inside `verify_api_key` is
not guarded by any try/except, so when that write fails the exception
propagates and verification does not return the identity — while the very
same state with a succeeding write verifies fine. -/
theorem claim_C8 :
    (verify_api_key stdSettings idHash 100 (some "H8") [c8Rec] false).1 =
      VerifyOutcome.dbError ∧
    (verify_api_key stdSettings idHash 100 (some "H8") [c8Rec] true).1 =
      VerifyOutcome.ok { c8Rec with last_used_at := some 100 } := by
  decide

/-- The rate-limit middleware layer (with the logging layer and the route
handler below it) returns the shared state it was given: the handler only
reads state, and the layer itself mutates nothing. -/
theorem rateLimit_state_pres (env : Env) (req : Request) (kid : Option String)
    (hd : Handler) (s : SysState) :
    ((rateLimitDispatch env req kid s (fun s3 =>
      loggingDispatch s3 (fun s4 => (hd req s4, s4, 1)))).2.1) = s := by
  cases kid <;> simp only [rateLimitDispatch, loggingDispatch] <;>
    split <;> (first | rfl | (split <;> rfl))

/-- The stack below the cache middleware never touches the Redis keyspace:
it only updates `keys` (the `last_used_at` write) and `logs` (usage logging). -/
theorem innerStack_cache_pres (env : Env) (hd : Handler) (req : Request) (s : SysState) :
    ((innerStack env hd req s).2.1).cache = s.cache := by
  unfold innerStack apiKeyDispatch
  split
  · rw [rateLimit_state_pres]
  · rcases hv : verify_api_key env.st env.sha256hex env.now req.api_key s.keys env.updateOk
      with ⟨out, keys1⟩
    cases out with
    | ok r =>
      simp only [hv]
      rcases hr : rateLimitDispatch env req (some r.id) { s with keys := keys1 }
          (fun s3 => loggingDispatch s3 (fun s4 => (hd req s4, s4, 1))) with ⟨resp, s2, n⟩
      have h2 : s2 = { s with keys := keys1 } := by
        have := rateLimit_state_pres env req (some r.id) hd { s with keys := keys1 }
        rw [hr] at this
        exact this
      simp [h2]
    | missing => simp [hv]
    | invalid => simp [hv]
    | expired => simp [hv]
    | dbError => simp [hv]

/-- Claim C6: a cache entry is written only for responses with status in the
2xx/3xx range.  Whenever the full pipeline produces a response whose status is
not in `[200, 400)` — a handler 404, any 4xx/5xx, a 401 or a 429 — the Redis
keyspace is left exactly as it was, so no entry appears under the request's
cache key and a subsequent lookup of that key misses just as it would have
before. -/
theorem claim_C6 (cfg : CacheConfig) (env : Env) (hd : Handler) (req : Request)
    (s : SysState)
    (hstat : ¬(200 ≤ (runApp cfg env hd req s).1.status_code ∧
               (runApp cfg env hd req s).1.status_code < 400)) :
    ((runApp cfg env hd req s).2.1).cache = s.cache := by
  have hcache := innerStack_cache_pres env hd req s
  rcases hn : innerStack env hd req s with ⟨resp, s1, n⟩
  rw [hn] at hcache
  unfold runApp cacheDispatch at hstat ⊢
  rw [hn] at hstat ⊢
  by_cases h1 : (req.method != "GET") = true
  · simpa [h1] using hcache
  · by_cases h2 : (cfg.cacheable_paths.any fun p => strStartsWith req.path p) = true
    · by_cases h3 : (cfg.exclude_paths.any fun p => strStartsWith req.path p) = true
      · simpa [h1, h2, h3] using hcache
      · rcases hf : cacheFind s.cache (get_cache_key_from_request req ("api:" ++ req.path))
          with _ | v
        · by_cases h4 : 200 ≤ resp.status_code ∧ resp.status_code < 400
          · simp [h1, h2, h3, hf, h4] at hstat
          · simpa [h1, h2, h3, hf, h4] using hcache
        · simp [h1, h2, h3, hf]
    · simpa [h1, h2] using hcache

/-- Witness for C6: a cacheable GET with a valid key whose handler answers
404 leaves the (empty) cache empty. -/
theorem claim_C6_witness :
    ((runApp middlewareCacheConfig (mkEnv 50) notFoundHandler c6Req c6State).2.1).cache =
      c6State.cache :=
  claim_C6 middlewareCacheConfig (mkEnv 50) notFoundHandler c6Req c6State (by decide)

/-- Claim C1, amended to what the source does: the cache middleware is the
outermost gate, so for every cacheable, non-excluded GET whose fingerprint
hits the cache, the pipeline answers the cached entry (verbatim content,
stored status, `X-Cache: HIT`) with the shared state untouched and the route
handler never invoked — in particular authentication is never performed and no
rate-limit accounting is charged for the request; the gates run only on cache
misses and on non-cacheable requests. -/
theorem claim_C1 (cfg : CacheConfig) (env : Env) (hd : Handler) (req : Request)
    (s : SysState) (v : CacheVal)
    (hm : req.method = "GET")
    (hc : (cfg.cacheable_paths.any fun p => strStartsWith req.path p) = true)
    (he : (cfg.exclude_paths.any fun p => strStartsWith req.path p) = false)
    (hhit : cacheFind s.cache (get_cache_key_from_request req ("api:" ++ req.path)) = some v) :
    runApp cfg env hd req s =
      ({ status_code := v.status_code, content := v.content,
         headers := assocSet v.headers "X-Cache" "HIT", media_type := v.media_type,
         error_code := none, error_message := none }, s, 0) := by
  unfold runApp cacheDispatch
  simp [hm, hc, he, hhit]

/-- Witness for the amended C1: the concrete C1 scenario (unknown API key,
pre-populated cache entry) is answered straight from the cache. -/
theorem claim_C1_witness :
    runApp middlewareCacheConfig (mkEnv 1000) okHandler c1Req c1State =
      ({ status_code := c1Val.status_code, content := c1Val.content,
         headers := assocSet c1Val.headers "X-Cache" "HIT",
         media_type := c1Val.media_type, error_code := none, error_message := none },
       c1State, 0) :=
  claim_C1 middlewareCacheConfig (mkEnv 1000) okHandler c1Req c1State c1Val
    (by rfl) (by decide) (by decide) (by decide)

/-- Claim C4, amended to what the source does: rate-limit accounting uses a
rolling window, not tumbling windows — a check at time `now` counts exactly
the matching usage-log rows with `created_at > now - period`, so any row at or
before `now - period` is ignored wherever it sits in the table, and the result
is identical to the result without that row.  There is no window boundary at
`floor(now / period) * period`. -/
theorem claim_C4 (st : Settings) (now : Int) (kid ep : String)
    (keys : List APIKeyRecord) (req : Option (Option String)) (l : UsageLog)
    (logs₁ logs₂ : List UsageLog)
    (hold : l.created_at ≤ now - effectivePeriod st keys kid) :
    check_rate_limit st now kid ep keys (logs₁ ++ l :: logs₂) req =
      check_rate_limit st now kid ep keys (logs₁ ++ logs₂) req := by
  unfold check_rate_limit
  split
  · rfl
  · have hnl : ¬(now - effectivePeriod st keys kid < l.created_at) := not_lt.mpr hold
    have hl : logMatches kid ep (now - effectivePeriod st keys kid) l = false := by
      unfold logMatches
      simp [hnl]
    simp [List.filter_append, List.filter_cons, hl]

/-- Witness for the amended C4: dropping a 90-second-old row does not change
the check at `now = 100` with period 60. -/
theorem claim_C4_witness :
    check_rate_limit stdSettings 100 "id4" "GET:/e" [] ([] ++ c4OldLog :: []) none =
      check_rate_limit stdSettings 100 "id4" "GET:/e" [] ([] ++ []) none :=
  claim_C4 stdSettings 100 "id4" "GET:/e" [] none c4OldLog [] [] (by decide)

/-- Claim C7, amended to what the source does: for every presented key whose
digest matches an *active* stored record (the lookup filters on
`is_active = TRUE`) with `expires_at` set and in the past, and which does not
trigger the debug test-credential bypass, verification fails with the expired
error, never the invalid one — regardless of the record's remaining fields,
of the rest of the table, and of the fate of the `last_used_at` write. -/
theorem claim_C7 (st : Settings) (hashf : String → String) (now : Int) (k : String)
    (keys : List APIKeyRecord) (updateOk : Bool) (r : APIKeyRecord) (e : Int)
    (hk : k ≠ "")
    (hdbg : (st.DEBUG && st.TEST_API_KEY == some k) = false)
    (hfind : keys.find? (fun q => q.key == hashf k && q.is_active) = some r)
    (hexp : r.expires_at = some e) (hlt : e < now) :
    (verify_api_key st hashf now (some k) keys updateOk).1 = VerifyOutcome.expired := by
  unfold verify_api_key
  simp [hk, hdbg, hfind, hexp, hlt]

/-- Witness for the amended C7: an active record expired at time 0 is
reported expired at `now = 100`. -/
theorem claim_C7_witness :
    (verify_api_key stdSettings idHash 100 (some "H7A") [c7ActiveRec] true).1 =
      VerifyOutcome.expired :=
  claim_C7 stdSettings idHash 100 "H7A" [c7ActiveRec] true c7ActiveRec 0
    (by decide) (by decide) (by decide) (by rfl) (by decide)

/-- Claim C10: when `DEBUG` is set and the request presents the configured
test API key, `check_rate_limit` answers the fixed tuple
`(allowed, limit 5, remaining 4, reset 60)` whatever the usage-log table, the
key table or the claimed identity say — the counting query is never reached —
and `log_api_key_usage` writes nothing for that request, so no persistent
counter ever moves for the test credential and it can never be rate-limited. -/
theorem claim_C10 (st : Settings) (now : Int) (kid ep m : String)
    (keys : List APIKeyRecord) (logs : List UsageLog) (t : String)
    (sc : Nat) (logOk : Bool)
    (hdbg : st.DEBUG = true) (ht : st.TEST_API_KEY = some t) :
    check_rate_limit st now kid ep keys logs (some (some t)) =
      { is_rate_limited := false, limit := 5, remaining := 4, reset := 60 } ∧
    log_api_key_usage st now (some t) kid ep m sc logs logOk = logs := by
  constructor
  · unfold check_rate_limit
    simp [testKeyMatches, hdbg, ht]
  · unfold log_api_key_usage
    simp [testKeyMatches, hdbg, ht]

/-- Witness for C10: with debug settings, a usage-log row in the window and a
mismatched identity, the test credential still gets the fixed allowed tuple
and nothing is logged. -/
theorem claim_C10_witness :
    check_rate_limit dbgSettings 100 "whatever" "GET:/e" [] [c2Log 99]
        (some (some "TESTKEY")) =
      { is_rate_limited := false, limit := 5, remaining := 4, reset := 60 } ∧
    log_api_key_usage dbgSettings 100 (some "TESTKEY") "whatever" "GET:/e" "GET" 200
        [c2Log 99] true = [c2Log 99] :=
  claim_C10 dbgSettings 100 "whatever" "GET:/e" "GET" [] [c2Log 99] "TESTKEY" 200 true
    (by rfl) (by rfl)

/-- Two lists of parameters that are permutations of each other, both sorted
by key, with pairwise-distinct keys, are equal. -/
theorem sorted_perm_nodup_fst_eq :
    ∀ {l₁ l₂ : List (String × Option String)}, l₁.Perm l₂ →
      l₁.Sorted paramLE → l₂.Sorted paramLE → (l₁.map Prod.fst).Nodup → l₁ = l₂ := by
  intro l₁
  induction l₁ with
  | nil =>
    intro l₂ hp _ _ _
    exact hp.nil_eq
  | cons a t₁ ih =>
    intro l₂ hp hs₁ hs₂ hnd
    cases l₂ with
    | nil => exact absurd hp.eq_nil (by simp)
    | cons b t₂ =>
      have hbmem : b ∈ a :: t₁ := hp.mem_iff.mpr (List.mem_cons_self b t₂)
      have hab : a = b := by
        rcases List.mem_cons.mp hbmem with hba | hbt
        · exact hba.symm
        · have h1 : paramLE a b := List.rel_of_sorted_cons hs₁ b hbt
          have hamem : a ∈ b :: t₂ := hp.mem_iff.mp (List.mem_cons_self a t₁)
          rcases List.mem_cons.mp hamem with hab' | hat
          · exact hab'
          · have h2 : paramLE b a := List.rel_of_sorted_cons hs₂ a hat
            have hfst : a.1 = b.1 := le_antisymm h1 h2
            exact List.inj_on_of_nodup_map hnd (List.mem_cons_self a t₁) hbmem hfst
      subst hab
      have hnd' : (t₁.map Prod.fst).Nodup := by
        rw [List.map_cons] at hnd
        exact hnd.of_cons
      rw [ih hp.cons_inv hs₁.of_cons hs₂.of_cons hnd']

/-- Claim C9: cache-key generation is deterministic and insensitive to
parameter order — for every prefix and any two parameter maps holding the
same key-value pairs (in any insertion order) with pairwise-distinct keys, as
Python dicts have, `generate_key` produces the identical key string. -/
theorem claim_C9 (pre : String) (p₁ p₂ : List (String × Option String))
    (hp : p₁.Perm p₂) (hnd : (p₁.map Prod.fst).Nodup) :
    generate_key pre p₁ = generate_key pre p₂ := by
  have hsorteq : p₁.insertionSort paramLE = p₂.insertionSort paramLE := by
    apply sorted_perm_nodup_fst_eq
    · exact (List.perm_insertionSort paramLE p₁).trans
        (hp.trans (List.perm_insertionSort paramLE p₂).symm)
    · exact List.sorted_insertionSort paramLE p₁
    · exact List.sorted_insertionSort paramLE p₂
    · exact (((List.perm_insertionSort paramLE p₁).map Prod.fst).nodup_iff).mpr hnd
  have hemp : p₁.isEmpty = p₂.isEmpty := by
    have hlen := hp.length_eq
    cases p₁ <;> cases p₂ <;> simp_all
  unfold generate_key
  rw [hemp, hsorteq]

/-- Witness for C9: the same two pairs in either insertion order give the
same key. -/
theorem claim_C9_witness :
    generate_key "api:/x" [("b", some "2"), ("a", some "1")] =
      generate_key "api:/x" [("a", some "1"), ("b", some "2")] :=
  claim_C9 "api:/x" [("b", some "2"), ("a", some "1")] [("a", some "1"), ("b", some "2")]
    (List.Perm.swap ("a", some "1") ("b", some "2") []) (by decide)

/-- The request path is never equal to the `"METHOD:path"` string built from
it: appending `METHOD ++ ":"` strictly lengthens the string. -/
theorem path_ne_method_colon_path (m p : String) : p ≠ m ++ ":" ++ p := by
  intro h
  have hlen := congrArg String.length h
  have hc : (":" : String).length = 1 := rfl
  rw [String.length_append, String.length_append, hc] at hlen
  omega

/-- Folding any schedule of batch actions from a state whose log rows all
carry the bare request path as endpoint admits every `check` action: the
counting read queries `"METHOD:path"`, which matches no such row, so each
check sees count 0 and `remaining = limit > 0`. -/
theorem simRun_foldl_admits (st : Settings) (reqMethod reqPath kid : String)
    (t : Int) (hpos : 0 < st.DEFAULT_RATE_LIMIT) :
    ∀ (sched : List RAct) (s : SimState), (∀ l ∈ s.logs, l.endpoint = reqPath) →
      (sched.foldl (simStep st reqMethod reqPath kid t) s).admitted =
        s.admitted ++ checkIndices sched := by
  intro sched
  induction sched with
  | nil =>
    intro s _
    simp [checkIndices]
  | cons a r ih =>
    intro s hinv
    cases a with
    | check i =>
      rw [List.foldl_cons]
      have hfil : s.logs.filter (logMatches kid (reqMethod ++ ":" ++ reqPath)
          (t - effectivePeriod st [] kid)) = [] := by
        rw [List.filter_eq_nil_iff]
        intro l hl
        unfold logMatches
        simp [hinv l hl, path_ne_method_colon_path reqMethod reqPath]
      have hstep : simStep st reqMethod reqPath kid t s (.check i) =
          { s with admitted := s.admitted ++ [i] } := by
        unfold simStep check_rate_limit
        simp [hfil, effectiveLimit, max_eq_right hpos.le, not_le.mpr hpos]
      rw [hstep, ih { s with admitted := s.admitted ++ [i] } hinv]
      simp [checkIndices]
    | append j =>
      rw [List.foldl_cons]
      have hstep : simStep st reqMethod reqPath kid t s (.append j) =
          { s with logs := s.logs ++ [batchLog kid reqMethod reqPath t] } := rfl
      rw [hstep, ih { s with logs := s.logs ++ [batchLog kid reqMethod reqPath t] }
        (by
          intro l hl
          rcases List.mem_append.mp hl with h | h
          · exact hinv l h
          · rw [List.mem_singleton.mp h]
            rfl)]
      simp [checkIndices]

/-- On the source's semantics, no interleaving discipline bounds admissions:
every schedule of a simultaneous batch — serialized or not — admits every
request whenever the limit is positive, because the appended usage-log rows
(endpoint = path) never match the counting read (endpoint = `"METHOD:path"`). -/
theorem simRun_admits_all (st : Settings) (reqMethod reqPath kid : String)
    (t : Int) (hpos : 0 < st.DEFAULT_RATE_LIMIT) (sched : List RAct) :
    (simRun st reqMethod reqPath kid t sched).admitted = checkIndices sched := by
  unfold simRun
  rw [simRun_foldl_admits st reqMethod reqPath kid t hpos sched _ (by simp)]
  simp

/-- Claim C5 (code bug): even the fully serialized execution of a
simultaneous batch — each request's usage-log append completing before the
next request's counting read, the most favorable interleaving there is —
admits all four requests of a limit-1 batch, and all four rows are logged.
The appended rows store the bare path `"/e"` (as `log_api_key_usage` does)
while the counting read queries `"GET:/e"` (as `RateLimitMiddleware` builds
it), so the count is always 0; and the check performs no increment of its
own, so no interleaving of the read/append steps is bounded by the limit. -/
theorem claim_C5 :
    (simRun c5Settings "GET" "/e" "id5" 100 (serialSched 4)).admitted = [0, 1, 2, 3] ∧
    (simRun c5Settings "GET" "/e" "id5" 100 (serialSched 4)).logs.length = 4 ∧
    (∀ l ∈ (simRun c5Settings "GET" "/e" "id5" 100 (serialSched 4)).logs,
      l.endpoint = "/e") ∧
    c5Settings.DEFAULT_RATE_LIMIT = 1 := by
  decide

/-- Supporting fact at the `cached_response` helper level: when the data
callback raises (a "not found" condition) on a cache miss, the error
propagates and the `cache.set` line is never reached — the keyspace is
unchanged. -/
theorem cached_response_error_no_write (cache : List (String × String)) (k : String)
    (cb : Unit → Except String String) (e : String)
    (hcb : cb () = .error e)
    (hmiss : (cache.find? (fun p => p.1 == k)).map Prod.snd = none) :
    cached_response cache k cb = (.error e, cache) := by
  unfold cached_response
  simp [hmiss, hcb]

end SurgeonMatch
